import Mathlib

/-!
Verification of the flood-alert dashboard (`Dashboard.py`).

The dashboard's score-handling functions (`get_risk_category`, `get_color`,
`safe_float_format`), its file selector (`load_latest_data`) and its
presentation panels (summary metrics, distribution chart, map, table) are
embedded shallowly below.  Python numbers are modelled as rationals; NaN and
unparsable values get their own constructors so that Python's comparison and
exception semantics can be followed faithfully.
-/

/-- A Python value that may reach the dashboard's score-handling functions:
`none` is Python `None`, `num q` a finite number (or numeric string) whose
`float(...)` conversion yields the rational `q`, `nan` a floating-point NaN,
and `invalid` a value on which `float(...)` raises `TypeError`/`ValueError`. -/
inductive PyVal where
  | none
  | num (q : ℚ)
  | nan
  | invalid
deriving DecidableEq

/-- The result of a successful Python `float(...)` conversion: a finite value
or NaN. -/
inductive PyFloat where
  | val (q : ℚ)
  | nan
deriving DecidableEq

/-- Python `<=` on floats: any comparison involving NaN is false (IEEE-754). -/
def pfLe : PyFloat → PyFloat → Bool
  | PyFloat.val x, PyFloat.val y => decide (x ≤ y)
  | _, _ => false

/-- Python `<` on floats: any comparison involving NaN is false (IEEE-754). -/
def pfLt : PyFloat → PyFloat → Bool
  | PyFloat.val x, PyFloat.val y => decide (x < y)
  | _, _ => false

/-- Python `>` on floats. -/
def pfGt (a b : PyFloat) : Bool := pfLt b a

/-- The `RISK_CATEGORIES` dict of `Dashboard.py` in insertion order: label,
lower bound and upper bound of a half-open range. -/
def RISK_CATEGORIES : List (String × ℚ × ℚ) :=
  [("No Risk", 0, 2), ("Low Risk", 2, 4), ("Moderate Risk", 4, 6),
   ("High Risk", 6, 8), ("Extreme Risk", 8, 10)]

/-- The `for category, (lower, upper) in RISK_CATEGORIES.items()` loop of
`get_risk_category`: return the first label whose range satisfies
`lower <= score < upper`, falling through to `"Invalid Data"`. -/
def firstMatching : List (String × ℚ × ℚ) → PyFloat → String
  | [], _ => "Invalid Data"
  | (c, lo, hi) :: rest, x =>
    if pfLe (PyFloat.val lo) x && pfLt x (PyFloat.val hi) then c
    else firstMatching rest x

/-- `get_risk_category` from `Dashboard.py`: `None` gives `"No Data"`; a value
on which `float` raises gives `"Invalid Data"` (the caught
`TypeError`/`ValueError`); otherwise the converted float is scanned against
`RISK_CATEGORIES`. -/
def get_risk_category : PyVal → String
  | PyVal.none => "No Data"
  | PyVal.invalid => "Invalid Data"
  | PyVal.num q => firstMatching RISK_CATEGORIES (PyFloat.val q)
  | PyVal.nan => firstMatching RISK_CATEGORIES PyFloat.nan

/-- The `COLOR_PALETTE` dict of `Dashboard.py`. -/
def COLOR_PALETTE : List (String × String) :=
  [("No Risk", "#00FF7F"), ("Low Risk", "#FFD700"), ("Moderate Risk", "#FF8C00"),
   ("High Risk", "#FF4500"), ("Extreme Risk", "#FF0000"),
   ("No Data", "#A9A9A9"), ("Invalid Data", "#696969")]

/-- Dictionary lookup `COLOR_PALETTE[key]` (all keys used are present). -/
def palette (key : String) : String :=
  ((COLOR_PALETTE.find? fun p => p.1 == key).map Prod.snd).getD ""

/-- A parsed color as branca stores it: the four channels scaled to [0, 1]. -/
structure Rgba where
  r : ℚ
  g : ℚ
  b : ℚ
  a : ℚ
deriving DecidableEq

/-- The five `GRADIENT_COLORS` hex stops of `Dashboard.py` as branca parses
them: each channel divided by 255, alpha 1. -/
def GRADIENT_RGBA : List Rgba :=
  [⟨0, 1, 127/255, 1⟩, ⟨1, 215/255, 0, 1⟩, ⟨1, 140/255, 0, 1⟩,
   ⟨1, 69/255, 0, 1⟩, ⟨1, 0, 0, 1⟩]

/-- Stop positions of `LinearColormap(GRADIENT_COLORS, vmin=0, vmax=10)`:
evenly spaced over [0, 10]. -/
def GRADIENT_INDEX : List ℚ := [0, 5/2, 5, 15/2, 10]

/-- Channel-wise linear interpolation of two parsed colors. -/
def blend (p : ℚ) (c d : Rgba) : Rgba :=
  ⟨(1 - p) * c.r + p * d.r, (1 - p) * c.g + p * d.g,
   (1 - p) * c.b + p * d.b, (1 - p) * c.a + p * d.a⟩

/-- branca's `LinearColormap.rgba_floats_tuple`: clamp to the end stops outside
the index range, otherwise blend between the two neighbouring stops. -/
def rgba_floats_tuple (colors : List Rgba) (index : List ℚ) (x : ℚ) : Rgba :=
  if x ≤ index.headD 0 then colors.headD ⟨0, 0, 0, 0⟩
  else if index.getLastD 0 ≤ x then colors.getLastD ⟨0, 0, 0, 0⟩
  else
    let i := (index.filter fun u => decide (u < x)).length
    let lo := index.getD (i - 1) 0
    let hi := index.getD i 0
    let p := if lo == hi then 1 else (x - lo) / (hi - lo)
    blend p (colors.getD (i - 1) ⟨0, 0, 0, 0⟩) (colors.getD i ⟨0, 0, 0, 0⟩)

/-- branca's byte conversion `int(u * 255.9999)`; Python `int` truncates toward
zero, which agrees with the floor on the nonnegative channels produced here. -/
def byteOf (u : ℚ) : Nat := (⌊u * (2559999 / 10000 : ℚ)⌋).toNat

/-- Lowercase hex digits of a byte padded to width two, as Python `"%02x"`
prints it. -/
def hexByte (n : Nat) : String :=
  String.mk (List.replicate (2 - (Nat.toDigits 16 n).length) '0' ++ Nat.toDigits 16 n)

/-- branca's `ColorMap.__call__` output format: the `"#rrggbbaa"` hex string of
a color. -/
def rgba_hex_str (c : Rgba) : String :=
  "#" ++ hexByte (byteOf c.r) ++ hexByte (byteOf c.g) ++ hexByte (byteOf c.b)
    ++ hexByte (byteOf c.a)

/-- The colormap `LinearColormap(GRADIENT_COLORS, vmin=0, vmax=10)` applied to
a score, exactly as `get_color` builds and calls it. -/
def cmap (x : ℚ) : String :=
  rgba_hex_str (rgba_floats_tuple GRADIENT_RGBA GRADIENT_INDEX x)

/-- `get_color` from `Dashboard.py`.  A NaN score passes the range guard (both
IEEE comparisons are false) but `int()` inside the colormap's byte conversion
raises `ValueError` on NaN, which the surrounding `except` maps to the
`'Invalid Data'` palette entry. -/
def get_color : PyVal → String
  | PyVal.none => palette "No Data"
  | PyVal.invalid => palette "Invalid Data"
  | PyVal.nan => palette "Invalid Data"
  | PyVal.num q =>
    if q < 0 ∨ 10 < q then palette "Invalid Data" else cmap q

/-- Round half to even at integer precision, the rounding Python's fixed-point
float formatting uses (binary-float artifacts aside). -/
def roundHalfEven (t : ℚ) : ℤ :=
  if t - ⌊t⌋ < 1/2 then ⌊t⌋
  else if 1/2 < t - ⌊t⌋ then ⌊t⌋ + 1
  else if ⌊t⌋ % 2 = 0 then ⌊t⌋ else ⌊t⌋ + 1

/-- Left-pad a digit list with zeros to the requested width. -/
def padZeros (width : Nat) (s : List Char) : List Char :=
  List.replicate (width - s.length) '0' ++ s

/-- Python fixed-point formatting `f"{v:.{prec}f}"` of a finite value. -/
def formatQ (prec : Nat) (q : ℚ) : String :=
  let n := roundHalfEven (q * (10 : ℚ) ^ prec)
  let sign := if n < 0 then "-" else ""
  let m := n.natAbs
  if prec = 0 then sign ++ String.mk (Nat.toDigits 10 m)
  else
    sign ++ String.mk (Nat.toDigits 10 (m / 10 ^ prec)) ++ "."
      ++ String.mk (padZeros prec (Nat.toDigits 10 (m % 10 ^ prec)))

/-- `safe_float_format` from `Dashboard.py` at a given precision: `None` and
unconvertible values give `"N/A"`; `f"{float(nan):.1f}"` prints `"nan"`. -/
def safe_float_format (prec : Nat) : PyVal → String
  | PyVal.none => "N/A"
  | PyVal.invalid => "N/A"
  | PyVal.nan => "nan"
  | PyVal.num q => formatQ prec q

/-- One row of the parsed GeoJSON table: its `risk_score` property and the
area its geometry yields (`geometry.area`, a library computation treated as a
per-row datum). -/
structure Row where
  risk_score : PyVal
  area : ℚ
deriving DecidableEq

/-- Result of `gpd.read_file` on a file: the rows plus whether the required
`risk_score` and `geometry` columns are present. -/
structure ParsedFile where
  rows : List Row
  hasRiskScore : Bool
  hasGeometry : Bool
deriving DecidableEq

/-- A file of the data directory as the selector observes it: name, byte size,
creation time, and what `gpd.read_file` would yield on it (`Except.error` when
parsing raises). -/
structure FileEntry where
  name : String
  size : Nat
  ctime : Nat
  parsed : Except String ParsedFile

/-- A row after `load_latest_data` attaches the derived `risk_category`
column. -/
structure CatRow where
  risk_score : PyVal
  area : ℚ
  risk_category : String
deriving DecidableEq

/-- The `data['risk_category'] = data['risk_score'].apply(get_risk_category)`
step of `load_latest_data`, per row. -/
def addCategory (r : Row) : CatRow :=
  ⟨r.risk_score, r.area, get_risk_category r.risk_score⟩

/-- The quadruple `load_latest_data` returns: records, load time, filename,
error-or-none. -/
structure LoadResult where
  data : Option (List CatRow)
  update_time : Option Nat
  filename : Option String
  error : Option String
deriving DecidableEq

/-- Python `str.endswith`: suffix test. -/
def pyEndsWith (s suf : String) : Bool :=
  List.isSuffixOf suf.data s.data

/-- The file filter of `load_latest_data`: keep names ending in `'.geojson'`
whose size is greater than zero. -/
def qualifying (entries : List FileEntry) : List FileEntry :=
  entries.filter fun f => pyEndsWith f.name ".geojson" && decide (0 < f.size)

/-- Python `max(files, key=getctime)`: fold keeping the first element whose
key no later element strictly exceeds. -/
def pymax (best : FileEntry) : List FileEntry → FileEntry
  | [] => best
  | f :: fs => pymax (if best.ctime < f.ctime then f else best) fs

/-- `load_latest_data` from `Dashboard.py`.  The directory is `Option.none`
when `os.path.exists(DATA_DIR)` is false, otherwise the list of its files in
`os.listdir` order.  A parse exception is caught by the surrounding `try` and
surfaced as `"Error loading data: ..."`. -/
def load_latest_data (dir : Option (List FileEntry)) : LoadResult :=
  match dir with
  | Option.none => ⟨Option.none, Option.none, Option.none, some "Data directory not found"⟩
  | some entries =>
    match qualifying entries with
    | [] => ⟨Option.none, Option.none, Option.none, some "No valid GeoJSON files found"⟩
    | f :: fs =>
      match (pymax f fs).parsed with
      | Except.error e =>
        ⟨Option.none, Option.none, Option.none, some ("Error loading data: " ++ e)⟩
      | Except.ok pd =>
        if pd.hasRiskScore && pd.hasGeometry then
          ⟨some (pd.rows.map addCategory), some (pymax f fs).ctime, some (pymax f fs).name,
           Option.none⟩
        else
          ⟨Option.none, Option.none, Option.none, some "Missing required columns in data"⟩

/-- The `ALERT_THRESHOLD` constant of `Dashboard.py`. -/
def ALERT_THRESHOLD : ℚ := 1

/-- The alert-zone metric
`sum(1 for x in data['risk_score'] if x is not None and float(x) > ALERT_THRESHOLD)`.
It is not wrapped in any `try`, so `float(x)` raising on an unparsable score
propagates; a NaN score is simply not counted (`nan > 1.0` is false). -/
def countAlerts : List PyVal → Except String Nat
  | [] => Except.ok 0
  | v :: vs =>
    match v with
    | PyVal.none => countAlerts vs
    | PyVal.invalid => Except.error "could not convert string to float"
    | PyVal.nan => countAlerts vs
    | PyVal.num q =>
      match countAlerts vs with
      | Except.error e => Except.error e
      | Except.ok n => Except.ok (if ALERT_THRESHOLD < q then n + 1 else n)

/-- Python `max` on floats: fold keeping the current value unless a later one
is strictly greater, so NaN wins only from the first position. -/
def pyFloatMax (best : PyFloat) : List PyFloat → PyFloat
  | [] => best
  | f :: fs => pyFloatMax (if pfGt f best then f else best) fs

/-- The `'Highest Risk'` metric: non-`None` scores are collected, converted by
`float` inside a `try` (so one unparsable score downgrades the metric to
`"N/A"`), and the Python `max` (first-wins on NaN ties) of the result, or `0`
when empty, is formatted. -/
def maxRiskDisplay (recs : List CatRow) : String :=
  let valid := (recs.map CatRow.risk_score).filter fun v => !(v == PyVal.none)
  if valid.contains PyVal.invalid then "N/A"
  else
    match valid.filterMap (fun v => match v with
      | PyVal.num q => some (PyFloat.val q)
      | PyVal.nan => some PyFloat.nan
      | _ => Option.none) with
    | [] => safe_float_format 1 (PyVal.num 0)
    | f :: fs =>
      match pyFloatMax f fs with
      | PyFloat.val q => safe_float_format 1 (PyVal.num q)
      | PyFloat.nan => safe_float_format 1 PyVal.nan

/-- The `'Area'` metric `f"{data.geometry.area.sum()/1e6:.2f} km²"`. -/
def areaDisplay (recs : List CatRow) : String :=
  formatQ 2 ((recs.map CatRow.area).sum / 1000000) ++ " km²"

/-- The distribution chart's data:
`value_counts()` of the category column reindexed over the full fixed label
list in declared order, zero-filled for absent labels. -/
def all_categories : List String :=
  (RISK_CATEGORIES.map Prod.fst) ++ ["No Data", "Invalid Data"]

/-- Per-label counts of the chart (`risk_counts` in `Dashboard.py`). -/
def risk_counts (cats : List String) : List (String × Nat) :=
  all_categories.map fun c => (c, cats.count c)

/-- One polygon of the folium map: fill color, tooltip texts, and whether the
border is dashed (`'Invalid Data'` rows). -/
structure MapShape where
  fillColor : String
  tooltipScore : String
  tooltipCategory : String
  dashed : Bool
deriving DecidableEq

/-- The map panel's per-record styling loop. -/
def mapShapes (recs : List CatRow) : List MapShape :=
  recs.map fun r =>
    ⟨get_color r.risk_score, safe_float_format 1 r.risk_score, r.risk_category,
     r.risk_category == "Invalid Data"⟩

/-- The table's sort key `float(x) if x is not None else -1`.  The NaN and
unparsable cases never reach a comparison: an unparsable score raises inside
the panel's `try` before sorting, and NaN keys are ordered by pandas's
NaN-last rule, modelled separately in `tableRows`. -/
def tableSortKey : PyVal → ℚ
  | PyVal.none => -1
  | PyVal.num q => q
  | PyVal.nan => 0
  | PyVal.invalid => 0

/-- Insertion step of a descending sort by a rational key (first position whose
key is not above the inserted one). -/
def insertDesc {α : Type} (k : α → ℚ) (a : α) : List α → List α
  | [] => [a]
  | b :: bs => if k b ≤ k a then a :: b :: bs else b :: insertDesc k a bs

/-- Descending sort by a rational key.  pandas's `sort_values` leaves the
relative order of equal keys unspecified (quicksort); this model fixes the
stable order, which no verified property depends on. -/
def sortDesc {α : Type} (k : α → ℚ) : List α → List α
  | [] => []
  | a :: as => insertDesc k a (sortDesc k as)

/-- The table panel's inner computation: `float(x)` on an unparsable score
raises (caught by the panel's own `try`, shown as an error instead of the
table); otherwise rows are sorted by `_sort_key` descending, with NaN keys
placed last by pandas's `na_position='last'` rule. -/
def tableRows (recs : List CatRow) : Except String (List CatRow) :=
  if (recs.map CatRow.risk_score).contains PyVal.invalid then
    Except.error "could not convert string to float"
  else
    Except.ok
      (sortDesc (fun r => tableSortKey r.risk_score)
          (recs.filter fun r => !(r.risk_score == PyVal.nan))
        ++ recs.filter fun r => r.risk_score == PyVal.nan)

/-- Everything one refresh pass renders after a successful load, panel by
panel. -/
structure RenderOut where
  total_zones : Nat
  max_risk : String
  area_km2 : String
  alert_zones : Nat
  chart : List (String × Nat)
  shapes : List MapShape
  table : Except String (List CatRow)

/-- One render pass over loaded data, in the panel order of `Dashboard.py`.
The zone-count, max-risk, area, chart, map and table panels cannot abort the
pass (each either cannot raise or catches its own failure), but the alert-zone
metric has no `try`: its exception propagates and stops the script, so the
panels after it never render. -/
def renderPass (recs : List CatRow) : Except String RenderOut :=
  match countAlerts (recs.map CatRow.risk_score) with
  | Except.error e => Except.error e
  | Except.ok alerts =>
    Except.ok
      { total_zones := recs.length
        max_risk := maxRiskDisplay recs
        area_km2 := areaDisplay recs
        alert_zones := alerts
        chart := risk_counts (recs.map CatRow.risk_category)
        shapes := mapShapes recs
        table := tableRows recs }

/-- The claim's table-ordering property: in a rendered row list, no record
with an absent (`None`) score appears strictly before a record with a numeric
score. -/
def nullsAfterNumerics (l : List CatRow) : Prop :=
  l.Pairwise fun x y => x.risk_score = PyVal.none → ∀ q : ℚ, y.risk_score ≠ PyVal.num q

/-- The three records of the spec's selector scenario, scores 1, 5 and 9. -/
def demoRows : List Row :=
  [⟨PyVal.num 1, 1⟩, ⟨PyVal.num 5, 1⟩, ⟨PyVal.num 9, 1⟩]

/-! ### Helper lemmas -/

/-- Evaluation of the category scan on a finite score as a nested range test. -/
theorem firstMatching_val (q : ℚ) :
    firstMatching RISK_CATEGORIES (PyFloat.val q) =
      if 0 ≤ q ∧ q < 2 then "No Risk"
      else if 2 ≤ q ∧ q < 4 then "Low Risk"
      else if 4 ≤ q ∧ q < 6 then "Moderate Risk"
      else if 6 ≤ q ∧ q < 8 then "High Risk"
      else if 8 ≤ q ∧ q < 10 then "Extreme Risk"
      else "Invalid Data" := by
  simp [RISK_CATEGORIES, firstMatching, pfLe, pfLt, Bool.and_eq_true, decide_eq_true_eq]

/-- The five ranges are pairwise disjoint, so at most one label can contain a
given score. -/
theorem risk_ranges_disjoint (q : ℚ) :
    ∀ c lo hi c' lo' hi', (c, lo, hi) ∈ RISK_CATEGORIES → (c', lo', hi') ∈ RISK_CATEGORIES →
      lo ≤ q → q < hi → lo' ≤ q → q < hi' → c = c' := by
  intro c lo hi c' lo' hi' h1 h2 hl hh hl' hh'
  simp only [RISK_CATEGORIES, List.mem_cons, List.not_mem_nil, or_false,
    Prod.mk.injEq] at h1 h2
  rcases h1 with ⟨rfl, rfl, rfl⟩ | ⟨rfl, rfl, rfl⟩ | ⟨rfl, rfl, rfl⟩ | ⟨rfl, rfl, rfl⟩ |
      ⟨rfl, rfl, rfl⟩ <;>
    rcases h2 with ⟨rfl, rfl, rfl⟩ | ⟨rfl, rfl, rfl⟩ | ⟨rfl, rfl, rfl⟩ | ⟨rfl, rfl, rfl⟩ |
      ⟨rfl, rfl, rfl⟩ <;>
    first | rfl | linarith

/-- The scan yields either the sentinel or one of the listed labels. -/
theorem firstMatching_mem (L : List (String × ℚ × ℚ)) (x : PyFloat) :
    firstMatching L x = "Invalid Data" ∨ firstMatching L x ∈ L.map Prod.fst := by
  induction L with
  | nil => exact Or.inl rfl
  | cons e rest ih =>
    rcases e with ⟨c, lo, hi⟩
    rw [firstMatching]
    split_ifs with h
    · right; simp
    · rcases ih with h1 | h1
      · exact Or.inl h1
      · right
        simp only [List.map_cons, List.mem_cons]
        exact Or.inr h1

/-- Every classifier output is one of the seven chart labels. -/
theorem get_risk_category_mem (v : PyVal) : get_risk_category v ∈ all_categories := by
  have hid : "Invalid Data" ∈ all_categories := by decide
  cases v with
  | none => decide
  | invalid => exact hid
  | num q =>
    show firstMatching RISK_CATEGORIES (PyFloat.val q) ∈ all_categories
    rcases firstMatching_mem RISK_CATEGORIES (PyFloat.val q) with h | h
    · rw [h]; exact hid
    · simp only [all_categories]
      exact List.mem_append_left _ h
  | nan =>
    show firstMatching RISK_CATEGORIES PyFloat.nan ∈ all_categories
    rcases firstMatching_mem RISK_CATEGORIES PyFloat.nan with h | h
    · rw [h]; exact hid
    · simp only [all_categories]
      exact List.mem_append_left _ h

/-- Distributing a sum over a pointwise addition of two maps. -/
theorem sum_map_add_nat {α : Type} (f g : α → Nat) (l : List α) :
    (l.map fun x => f x + g x).sum = (l.map f).sum + (l.map g).sum := by
  induction l with
  | nil => rfl
  | cons a as ih =>
    simp only [List.map_cons, List.sum_cons, ih]
    omega

/-- Summing the indicator of equality with `a` counts the occurrences of `a`. -/
theorem sum_ind_eq_count {α : Type} [DecidableEq α] (a : α) (l : List α) :
    (l.map fun c => if c = a then 1 else 0).sum = l.count a := by
  induction l with
  | nil => rfl
  | cons b bs ih =>
    simp only [List.map_cons, List.sum_cons, ih, List.count_cons]
    by_cases h : b = a
    · subst h; simp [Nat.add_comm]
    · simp [h, Ne.symm h]

/-- Counting over a duplicate-free label list that covers every element of `l`
recovers the length of `l`. -/
theorem counts_sum {α : Type} [DecidableEq α] (cats : List α) (l : List α)
    (hnd : cats.Nodup) (h : ∀ x ∈ l, x ∈ cats) :
    (cats.map fun c => l.count c).sum = l.length := by
  induction l with
  | nil => simp
  | cons a as ih =>
    have ha : a ∈ cats := h a (List.mem_cons_self a as)
    have hs : ∀ x ∈ as, x ∈ cats := fun x hx => h x (List.mem_cons_of_mem a hx)
    have hc : ∀ c, (a :: as).count c = as.count c + (if c = a then 1 else 0) := by
      intro c
      by_cases hca : c = a
      · subst hca; simp [List.count_cons]
      · simp [List.count_cons, hca, Ne.symm hca]
    calc (cats.map fun c => (a :: as).count c).sum
        = (cats.map fun c => as.count c + (if c = a then 1 else 0)).sum := by
          simp only [hc]
      _ = (cats.map fun c => as.count c).sum
            + (cats.map fun c => if c = a then 1 else 0).sum :=
          sum_map_add_nat _ _ cats
      _ = as.length + cats.count a := by rw [ih hs, sum_ind_eq_count]
      _ = as.length + 1 := by rw [List.count_eq_one_of_mem hnd ha]
      _ = (a :: as).length := by simp [Nat.add_comm]

/-- A formatted byte always prints at least two characters. -/
theorem hexByte_length (n : Nat) : 2 ≤ (hexByte n).length := by
  have h : (hexByte n).length
      = (List.replicate (2 - (Nat.toDigits 16 n).length) '0' ++ Nat.toDigits 16 n).length :=
    rfl
  rw [h, List.length_append, List.length_replicate]
  omega

/-- A colormap output is at least nine characters long, so it can never equal
either seven-character sentinel gray. -/
theorem rgba_hex_str_length (c : Rgba) : 9 ≤ (rgba_hex_str c).length := by
  rw [rgba_hex_str, String.length_append, String.length_append, String.length_append,
    String.length_append]
  have h1 := hexByte_length (byteOf c.r)
  have h2 := hexByte_length (byteOf c.g)
  have h3 := hexByte_length (byteOf c.b)
  have h4 := hexByte_length (byteOf c.a)
  have h5 : ("#" : String).length = 1 := rfl
  omega

/-- A colormap output never equals the `'No Data'` gray `#A9A9A9`. -/
theorem cmap_ne_grayA (x : ℚ) : cmap x ≠ "#A9A9A9" := by
  intro hc
  have h := rgba_hex_str_length (rgba_floats_tuple GRADIENT_RGBA GRADIENT_INDEX x)
  rw [show rgba_hex_str (rgba_floats_tuple GRADIENT_RGBA GRADIENT_INDEX x) = cmap x from rfl,
    hc] at h
  exact absurd h (by decide)

/-- A colormap output never equals the `'Invalid Data'` gray `#696969`. -/
theorem cmap_ne_grayB (x : ℚ) : cmap x ≠ "#696969" := by
  intro hc
  have h := rgba_hex_str_length (rgba_floats_tuple GRADIENT_RGBA GRADIENT_INDEX x)
  rw [show rgba_hex_str (rgba_floats_tuple GRADIENT_RGBA GRADIENT_INDEX x) = cmap x from rfl,
    hc] at h
  exact absurd h (by decide)

/-- The selected file is one of the candidates. -/
theorem pymax_mem (f : FileEntry) (fs : List FileEntry) : pymax f fs ∈ f :: fs := by
  induction fs generalizing f with
  | nil => simp [pymax]
  | cons g gs ih =>
    rw [pymax]
    have h := ih (if f.ctime < g.ctime then g else f)
    rcases List.mem_cons.mp h with h1 | h1
    · rw [h1]
      split_ifs <;> simp
    · simp [List.mem_cons, Or.inr (Or.inr h1)]

/-- The running best never beats the selected file's creation time. -/
theorem pymax_best_le (best : FileEntry) (fs : List FileEntry) :
    best.ctime ≤ (pymax best fs).ctime := by
  induction fs generalizing best with
  | nil => exact le_refl _
  | cons x xs ih =>
    rw [pymax]
    rcases le_or_lt x.ctime best.ctime with h | h
    · rw [if_neg (not_lt.mpr h)]
      exact ih best
    · rw [if_pos h]
      exact le_trans (le_of_lt h) (ih x)

/-- No listed candidate beats the selected file's creation time. -/
theorem pymax_mem_le (best : FileEntry) (fs : List FileEntry) :
    ∀ g ∈ fs, g.ctime ≤ (pymax best fs).ctime := by
  induction fs generalizing best with
  | nil => intro g hg; simp at hg
  | cons x xs ih =>
    intro g hg
    rw [pymax]
    rcases List.mem_cons.mp hg with rfl | hg'
    · rcases lt_or_le best.ctime g.ctime with h | h
      · rw [if_pos h]
        exact pymax_best_le g xs
      · rw [if_neg (not_lt.mpr h)]
        exact le_trans h (pymax_best_le best xs)
    · exact ih _ g hg'

/-- Inserting preserves a permutation with the pushed-in element. -/
theorem insertDesc_perm {α : Type} (k : α → ℚ) (a : α) (l : List α) :
    (insertDesc k a l).Perm (a :: l) := by
  induction l with
  | nil => exact List.Perm.refl _
  | cons b bs ih =>
    rw [insertDesc]
    split_ifs with h
    · exact List.Perm.refl _
    · exact (ih.cons b).trans (List.Perm.swap a b bs)

/-- The descending sort permutes its input. -/
theorem sortDesc_perm {α : Type} (k : α → ℚ) (l : List α) : (sortDesc k l).Perm l := by
  induction l with
  | nil => exact List.Perm.refl _
  | cons a as ih => exact (insertDesc_perm k a (sortDesc k as)).trans (ih.cons a)

/-- Inserting into a descending list keeps it descending. -/
theorem insertDesc_pairwise {α : Type} (k : α → ℚ) (a : α) (l : List α)
    (h : l.Pairwise fun x y => k y ≤ k x) :
    (insertDesc k a l).Pairwise fun x y => k y ≤ k x := by
  induction l with
  | nil => simp [insertDesc]
  | cons b bs ih =>
    rw [insertDesc]
    rcases List.pairwise_cons.mp h with ⟨hb, hbs⟩
    split_ifs with hba
    · refine List.pairwise_cons.mpr ⟨?_, h⟩
      intro c hc
      rcases List.mem_cons.mp hc with rfl | hc'
      · exact hba
      · exact le_trans (hb c hc') hba
    · refine List.pairwise_cons.mpr ⟨?_, ih hbs⟩
      intro c hc
      rcases List.mem_cons.mp ((insertDesc_perm k a bs).mem_iff.mp hc) with rfl | hc'
      · exact le_of_lt (not_le.mp hba)
      · exact hb c hc'

/-- The descending sort is descending in the key. -/
theorem sortDesc_pairwise {α : Type} (k : α → ℚ) (l : List α) :
    (sortDesc k l).Pairwise fun x y => k y ≤ k x := by
  induction l with
  | nil => simp [sortDesc]
  | cons a as ih => exact insertDesc_pairwise k a (sortDesc k as) ih

/-- A relation holding between all members holds pairwise. -/
theorem pairwise_of_mem {α : Type} {R : α → α → Prop} {l : List α}
    (h : ∀ x ∈ l, ∀ y ∈ l, R x y) : l.Pairwise R := by
  induction l with
  | nil => exact List.Pairwise.nil
  | cons a as ih =>
    refine List.pairwise_cons.mpr ⟨fun b hb => h a (by simp) b (by simp [hb]), ih ?_⟩
    intro x hx y hy
    exact h x (by simp [hx]) y (by simp [hy])

/-- Splitting a list by a predicate permutes it. -/
theorem perm_filter_split {α : Type} (p : α → Bool) (l : List α) :
    ((l.filter fun x => !(p x)) ++ l.filter p).Perm l := by
  induction l with
  | nil => simp
  | cons a as ih =>
    by_cases h : p a = true
    · simp only [List.filter_cons, h, Bool.not_true, Bool.false_eq_true, if_false, if_true]
      exact List.perm_middle.trans (ih.cons a)
    · simp only [List.filter_cons, h, Bool.not_eq_true'] at *
      simp only [h, Bool.not_false, if_true, Bool.false_eq_true, if_false, List.cons_append]
      exact ih.cons a

/-- The alert-zone sum succeeds exactly when no score is an unparsable
value. -/
theorem countAlerts_ok_iff (vs : List PyVal) :
    (∃ n, countAlerts vs = Except.ok n) ↔ ∀ v ∈ vs, v ≠ PyVal.invalid := by
  induction vs with
  | nil =>
    constructor
    · intro _ v hv
      simp at hv
    · intro _
      exact ⟨0, rfl⟩
  | cons v vs ih =>
    cases v with
    | none =>
      rw [show countAlerts (PyVal.none :: vs) = countAlerts vs from rfl]
      constructor
      · intro h x hx
        rcases List.mem_cons.mp hx with rfl | hx
        · simp
        · exact (ih.mp h) x hx
      · intro h
        exact ih.mpr fun x hx => h x (List.mem_cons_of_mem _ hx)
    | nan =>
      rw [show countAlerts (PyVal.nan :: vs) = countAlerts vs from rfl]
      constructor
      · intro h x hx
        rcases List.mem_cons.mp hx with rfl | hx
        · simp
        · exact (ih.mp h) x hx
      · intro h
        exact ih.mpr fun x hx => h x (List.mem_cons_of_mem _ hx)
    | invalid =>
      constructor
      · rintro ⟨n, hn⟩
        exact Except.noConfusion hn
      · intro h
        exact absurd rfl (h PyVal.invalid (List.mem_cons_self _ _))
    | num q =>
      cases hc : countAlerts vs with
      | error e =>
        constructor
        · rintro ⟨n, hn⟩
          rw [show countAlerts (PyVal.num q :: vs)
              = (match countAlerts vs with
                 | Except.error e => Except.error e
                 | Except.ok n => Except.ok (if ALERT_THRESHOLD < q then n + 1 else n))
            from rfl, hc] at hn
          exact Except.noConfusion hn
        · intro h
          rcases ih.mpr (fun x hx => h x (List.mem_cons_of_mem _ hx)) with ⟨n, hn⟩
          rw [hn] at hc
          exact Except.noConfusion hc
      | ok n =>
        constructor
        · intro _ x hx
          rcases List.mem_cons.mp hx with rfl | hx
          · simp
          · exact (ih.mp ⟨n, hc⟩) x hx
        · intro _
          refine ⟨if ALERT_THRESHOLD < q then n + 1 else n, ?_⟩
          rw [show countAlerts (PyVal.num q :: vs)
              = (match countAlerts vs with
                 | Except.error e => Except.error e
                 | Except.ok n => Except.ok (if ALERT_THRESHOLD < q then n + 1 else n))
            from rfl, hc]

/-! ### Claims -/

/-- C1: for every score `s` with `0 ≤ s < 10`, `get_risk_category` returns
exactly one of the five risk labels, namely the (unique, hence first in
ascending range order) label whose half-open range `[lower, upper)` contains
`s`; any number with `s ≥ 10` or `s < 0` yields `"Invalid Data"`. -/
theorem c1_classifier_ranges (q : ℚ) :
    (0 ≤ q → q < 2 → get_risk_category (PyVal.num q) = "No Risk") ∧
    (2 ≤ q → q < 4 → get_risk_category (PyVal.num q) = "Low Risk") ∧
    (4 ≤ q → q < 6 → get_risk_category (PyVal.num q) = "Moderate Risk") ∧
    (6 ≤ q → q < 8 → get_risk_category (PyVal.num q) = "High Risk") ∧
    (8 ≤ q → q < 10 → get_risk_category (PyVal.num q) = "Extreme Risk") ∧
    (0 ≤ q → q < 10 → ∃ lo hi,
      (get_risk_category (PyVal.num q), lo, hi) ∈ RISK_CATEGORIES ∧ lo ≤ q ∧ q < hi ∧
      ∀ c lo' hi', (c, lo', hi') ∈ RISK_CATEGORIES → lo' ≤ q → q < hi' →
        c = get_risk_category (PyVal.num q)) ∧
    ((q < 0 ∨ 10 ≤ q) → get_risk_category (PyVal.num q) = "Invalid Data") := by
  have hv : get_risk_category (PyVal.num q) =
      (if 0 ≤ q ∧ q < 2 then "No Risk"
       else if 2 ≤ q ∧ q < 4 then "Low Risk"
       else if 4 ≤ q ∧ q < 6 then "Moderate Risk"
       else if 6 ≤ q ∧ q < 8 then "High Risk"
       else if 8 ≤ q ∧ q < 10 then "Extreme Risk"
       else "Invalid Data") := firstMatching_val q
  refine ⟨?_, ?_, ?_, ?_, ?_, ?_, ?_⟩
  · intro h1 h2
    rw [hv, if_pos ⟨h1, h2⟩]
  · intro h1 h2
    rw [hv, if_neg (by rintro ⟨hx, hy⟩; linarith), if_pos ⟨h1, h2⟩]
  · intro h1 h2
    rw [hv, if_neg (by rintro ⟨hx, hy⟩; linarith), if_neg (by rintro ⟨hx, hy⟩; linarith),
      if_pos ⟨h1, h2⟩]
  · intro h1 h2
    rw [hv, if_neg (by rintro ⟨hx, hy⟩; linarith), if_neg (by rintro ⟨hx, hy⟩; linarith),
      if_neg (by rintro ⟨hx, hy⟩; linarith), if_pos ⟨h1, h2⟩]
  · intro h1 h2
    rw [hv, if_neg (by rintro ⟨hx, hy⟩; linarith), if_neg (by rintro ⟨hx, hy⟩; linarith),
      if_neg (by rintro ⟨hx, hy⟩; linarith), if_neg (by rintro ⟨hx, hy⟩; linarith),
      if_pos ⟨h1, h2⟩]
  · intro h0 h10
    rcases lt_or_le q 2 with h2 | h2
    · have hr : get_risk_category (PyVal.num q) = "No Risk" := by
        rw [hv, if_pos ⟨h0, h2⟩]
      refine ⟨0, 2, ?_, h0, h2, ?_⟩
      · rw [hr]; decide
      · intro c lo' hi' hm hl hh
        exact risk_ranges_disjoint q c lo' hi' (get_risk_category (PyVal.num q)) 0 2 hm
          (by rw [hr]; decide) hl hh (by rw [hr] at *; exact h0) (by exact h2)
    · rcases lt_or_le q 4 with h4 | h4
      · have hr : get_risk_category (PyVal.num q) = "Low Risk" := by
          rw [hv, if_neg (by rintro ⟨hx, hy⟩; linarith), if_pos ⟨h2, h4⟩]
        refine ⟨2, 4, ?_, h2, h4, ?_⟩
        · rw [hr]; decide
        · intro c lo' hi' hm hl hh
          exact risk_ranges_disjoint q c lo' hi' (get_risk_category (PyVal.num q)) 2 4 hm
            (by rw [hr]; decide) hl hh h2 h4
      · rcases lt_or_le q 6 with h6 | h6
        · have hr : get_risk_category (PyVal.num q) = "Moderate Risk" := by
            rw [hv, if_neg (by rintro ⟨hx, hy⟩; linarith),
              if_neg (by rintro ⟨hx, hy⟩; linarith), if_pos ⟨h4, h6⟩]
          refine ⟨4, 6, ?_, h4, h6, ?_⟩
          · rw [hr]; decide
          · intro c lo' hi' hm hl hh
            exact risk_ranges_disjoint q c lo' hi' (get_risk_category (PyVal.num q)) 4 6 hm
              (by rw [hr]; decide) hl hh h4 h6
        · rcases lt_or_le q 8 with h8 | h8
          · have hr : get_risk_category (PyVal.num q) = "High Risk" := by
              rw [hv, if_neg (by rintro ⟨hx, hy⟩; linarith),
                if_neg (by rintro ⟨hx, hy⟩; linarith),
                if_neg (by rintro ⟨hx, hy⟩; linarith), if_pos ⟨h6, h8⟩]
            refine ⟨6, 8, ?_, h6, h8, ?_⟩
            · rw [hr]; decide
            · intro c lo' hi' hm hl hh
              exact risk_ranges_disjoint q c lo' hi' (get_risk_category (PyVal.num q)) 6 8 hm
                (by rw [hr]; decide) hl hh h6 h8
          · have hr : get_risk_category (PyVal.num q) = "Extreme Risk" := by
              rw [hv, if_neg (by rintro ⟨hx, hy⟩; linarith),
                if_neg (by rintro ⟨hx, hy⟩; linarith),
                if_neg (by rintro ⟨hx, hy⟩; linarith),
                if_neg (by rintro ⟨hx, hy⟩; linarith), if_pos ⟨h8, h10⟩]
            refine ⟨8, 10, ?_, h8, h10, ?_⟩
            · rw [hr]; decide
            · intro c lo' hi' hm hl hh
              exact risk_ranges_disjoint q c lo' hi' (get_risk_category (PyVal.num q)) 8 10 hm
                (by rw [hr]; decide) hl hh h8 h10
  · intro h
    rcases h with h | h
    · rw [hv, if_neg (by rintro ⟨hx, hy⟩; linarith), if_neg (by rintro ⟨hx, hy⟩; linarith),
        if_neg (by rintro ⟨hx, hy⟩; linarith), if_neg (by rintro ⟨hx, hy⟩; linarith),
        if_neg (by rintro ⟨hx, hy⟩; linarith)]
    · rw [hv, if_neg (by rintro ⟨hx, hy⟩; linarith), if_neg (by rintro ⟨hx, hy⟩; linarith),
        if_neg (by rintro ⟨hx, hy⟩; linarith), if_neg (by rintro ⟨hx, hy⟩; linarith),
        if_neg (by rintro ⟨hx, hy⟩; linarith)]

/-- Witness for C1 at the concrete score 3, which lies in `[2, 4)`. -/
theorem c1_witness : get_risk_category (PyVal.num 3) = "Low Risk" :=
  (c1_classifier_ranges 3).2.1 (by norm_num) (by norm_num)

/-- C2: the classifier's sentinel outputs on `None`, an unparsable value, 10
and -1. -/
theorem c2_sentinels :
    get_risk_category PyVal.none = "No Data" ∧
    get_risk_category PyVal.invalid = "Invalid Data" ∧
    get_risk_category (PyVal.num 10) = "Invalid Data" ∧
    get_risk_category (PyVal.num (-1)) = "Invalid Data" :=
  ⟨rfl, rfl, by decide, by decide⟩

/-- C9: a NaN score passes the `None` check, fails every range comparison
(both IEEE comparisons with NaN are false), and is labelled `"Invalid Data"`,
not `"No Data"`. -/
theorem c9_nan_invalid :
    get_risk_category PyVal.nan = "Invalid Data" ∧
    get_risk_category PyVal.nan ≠ "No Data" :=
  ⟨by decide, by decide⟩

/-- C10: at the score exactly 10 the classifier and the colorizer diverge:
`get_risk_category 10 = "Invalid Data"` (the top range `[8, 10)` excludes 10)
while `get_color 10` takes the colormap branch (the guard rejects only scores
strictly below 0 or strictly above 10) and yields the gradient's endpoint
color — the clamp-to-last-stop output `"#ff0000ff"` — not a sentinel gray. -/
theorem c10_boundary_ten :
    get_risk_category (PyVal.num 10) = "Invalid Data" ∧
    get_color (PyVal.num 10) = cmap 10 ∧
    rgba_floats_tuple GRADIENT_RGBA GRADIENT_INDEX 10 = GRADIENT_RGBA.getLastD ⟨0, 0, 0, 0⟩ ∧
    cmap 10 = "#ff0000ff" ∧
    cmap 10 ≠ palette "Invalid Data" ∧
    cmap 10 ≠ palette "No Data" := by
  have h1 : byteOf 1 = 255 := by
    rw [byteOf, show ((1 : ℚ) * (2559999 / 10000)) = 2559999 / 10000 by norm_num,
      show (⌊(2559999 : ℚ) / 10000⌋ : ℤ) = 255 by rw [Int.floor_eq_iff]; norm_num]
    rfl
  have h0 : byteOf 0 = 0 := by
    rw [byteOf, show ((0 : ℚ) * (2559999 / 10000)) = 0 by norm_num]
    norm_num
  have hrf : rgba_floats_tuple GRADIENT_RGBA GRADIENT_INDEX 10 = ⟨1, 0, 0, 1⟩ := by
    rw [rgba_floats_tuple]
    norm_num [GRADIENT_INDEX, GRADIENT_RGBA]
  have hcm : cmap 10 = "#ff0000ff" := by
    rw [cmap, hrf, rgba_hex_str]
    rw [show (⟨1, 0, 0, 1⟩ : Rgba).r = 1 from rfl, show (⟨1, 0, 0, 1⟩ : Rgba).g = 0 from rfl,
      show (⟨1, 0, 0, 1⟩ : Rgba).b = 0 from rfl, show (⟨1, 0, 0, 1⟩ : Rgba).a = 1 from rfl,
      h1, h0]
    rfl
  refine ⟨by decide, ?_, by rw [hrf]; rfl, hcm, by rw [hcm]; decide, by rw [hcm]; decide⟩
  rw [show get_color (PyVal.num 10) = (if (10 : ℚ) < 0 ∨ (10 : ℚ) < 10
      then palette "Invalid Data" else cmap 10) from rfl,
    if_neg (by rintro (h | h) <;> linarith)]

/-- C3: `get_color` maps `None` to the fixed gray `#A9A9A9`, an unparsable
value or a number outside `[0, 10]` to the fixed gray `#696969`, and a number
inside `[0, 10]` to the five-stop colormap output, which is never either
sentinel gray. -/
theorem c3_color_sentinels (q : ℚ) :
    get_color PyVal.none = "#A9A9A9" ∧
    get_color PyVal.invalid = "#696969" ∧
    get_color (PyVal.num 11) = "#696969" ∧
    ((q < 0 ∨ 10 < q) → get_color (PyVal.num q) = "#696969") ∧
    (0 ≤ q → q ≤ 10 → get_color (PyVal.num q) = cmap q ∧
      cmap q ≠ "#A9A9A9" ∧ cmap q ≠ "#696969") := by
  refine ⟨by decide, by decide, by decide, ?_, ?_⟩
  · intro h
    rw [show get_color (PyVal.num q) = (if q < 0 ∨ 10 < q
        then palette "Invalid Data" else cmap q) from rfl, if_pos h]
    decide
  · intro h0 h10
    refine ⟨?_, cmap_ne_grayA q, cmap_ne_grayB q⟩
    rw [show get_color (PyVal.num q) = (if q < 0 ∨ 10 < q
        then palette "Invalid Data" else cmap q) from rfl,
      if_neg (by rintro (h | h) <;> linarith)]

/-- Witness for C3 at the concrete in-range score 5. -/
theorem c3_witness :
    get_color (PyVal.num 5) = cmap 5 ∧ cmap 5 ≠ "#A9A9A9" ∧ cmap 5 ≠ "#696969" :=
  (c3_color_sentinels 5).2.2.2.2 (by norm_num) (by norm_num)

/-- C5: the distribution chart's per-category counts, reindexed over the full
seven-label list in declared order with zero fill, sum to the record count,
because `get_risk_category` maps every value to exactly one of the seven
labels. -/
theorem c5_chart_counts (scores : List PyVal) :
    ((risk_counts (scores.map get_risk_category)).map Prod.snd).sum = scores.length := by
  have hmap : (risk_counts (scores.map get_risk_category)).map Prod.snd
      = all_categories.map fun c => (scores.map get_risk_category).count c := by
    rw [risk_counts, List.map_map]
    rfl
  rw [hmap, counts_sum all_categories (scores.map get_risk_category) (by decide) ?_,
    List.length_map]
  intro x hx
  rcases List.mem_map.mp hx with ⟨v, _, rfl⟩
  exact get_risk_category_mem v

/-- Witness for C5 on a three-record list covering a numeric, an absent and an
unparsable score. -/
theorem c5_witness :
    ((risk_counts ([PyVal.none, PyVal.num 3, PyVal.invalid].map get_risk_category)).map
      Prod.snd).sum = 3 :=
  c5_chart_counts [PyVal.none, PyVal.num 3, PyVal.invalid]

/-- C4: among files matching the `.geojson`/non-empty filter the selector
picks one with the latest creation time (a zero-size matching file is never
selected), and when the directory is absent or no file qualifies the loader
returns only a descriptive error, with no record set, load time or
filename. -/
theorem c4_file_selection (entries : List FileEntry) :
    load_latest_data Option.none
        = ⟨Option.none, Option.none, Option.none, some "Data directory not found"⟩ ∧
    (qualifying entries = [] →
      load_latest_data (some entries)
        = ⟨Option.none, Option.none, Option.none, some "No valid GeoJSON files found"⟩) ∧
    (∀ f fs, qualifying entries = f :: fs →
      pymax f fs ∈ qualifying entries ∧
      pyEndsWith (pymax f fs).name ".geojson" = true ∧
      0 < (pymax f fs).size ∧
      (∀ g ∈ qualifying entries, g.ctime ≤ (pymax f fs).ctime) ∧
      ((load_latest_data (some entries)).error = Option.none →
        (load_latest_data (some entries)).filename = some (pymax f fs).name ∧
        (load_latest_data (some entries)).update_time = some (pymax f fs).ctime)) := by
  refine ⟨rfl, ?_, ?_⟩
  · intro h
    rw [load_latest_data, h]
  · intro f fs h
    have hm : pymax f fs ∈ qualifying entries := by
      rw [h]
      exact pymax_mem f fs
    have hm2 : pymax f fs
        ∈ entries.filter (fun g => pyEndsWith g.name ".geojson" && decide (0 < g.size)) := hm
    have hp := (List.mem_filter.mp hm2).2
    simp only [Bool.and_eq_true] at hp
    obtain ⟨hp1, hp2⟩ := hp
    refine ⟨hm, hp1, of_decide_eq_true hp2, ?_, ?_⟩
    · intro g hg
      rw [h] at hg
      rcases List.mem_cons.mp hg with rfl | hg'
      · exact pymax_best_le g fs
      · exact pymax_mem_le f fs g hg'
    · intro herr
      simp only [load_latest_data, h] at herr ⊢
      cases hpp : (pymax f fs).parsed with
      | error e =>
        simp only [hpp] at herr
        exact Option.noConfusion herr
      | ok pd =>
        simp only [hpp] at herr ⊢
        by_cases hcols : (pd.hasRiskScore && pd.hasGeometry) = true
        · simp [hcols]
        · simp [hcols] at herr

/-- Witness for C4 on a one-file directory whose file qualifies. -/
theorem c4_witness :
    0 < (pymax ⟨"b.geojson", 512, 5, Except.ok ⟨[], true, true⟩⟩ []).size ∧
    ∀ g ∈ qualifying [⟨"b.geojson", 512, 5, Except.ok ⟨[], true, true⟩⟩],
      g.ctime ≤ (pymax ⟨"b.geojson", 512, 5, Except.ok ⟨[], true, true⟩⟩ []).ctime := by
  have h := (c4_file_selection [⟨"b.geojson", 512, 5, Except.ok ⟨[], true, true⟩⟩]).2.2
    ⟨"b.geojson", 512, 5, Except.ok ⟨[], true, true⟩⟩ [] rfl
  exact ⟨h.2.2.1, h.2.2.2.1⟩

/-- C6 counterexample: the table's sort key maps an absent score to -1, so a
record with the numeric score -5 sorts after the null record — the null row
does not come last. -/
theorem c6_counterexample :
    tableRows [⟨PyVal.num (-5), 1, "Invalid Data"⟩, ⟨PyVal.none, 1, "No Data"⟩]
      = Except.ok [⟨PyVal.none, 1, "No Data"⟩, ⟨PyVal.num (-5), 1, "Invalid Data"⟩] ∧
    ¬ nullsAfterNumerics
        [⟨PyVal.none, 1, "No Data"⟩, ⟨PyVal.num (-5), 1, "Invalid Data"⟩] := by
  refine ⟨rfl, ?_⟩
  intro h
  rcases List.pairwise_cons.mp h with ⟨hfirst, _⟩
  exact hfirst ⟨PyVal.num (-5), 1, "Invalid Data"⟩ (by simp) rfl (-5) rfl

/-- C6 as amended: the table shows every record, rows with non-NaN keys are
sorted descending by the sort key, and a null-score record sorts after every
record whose numeric score exceeds the null sentinel key -1 (in particular
after every record with an in-range score); a numeric score below -1 may sort
after a null record, which the original claim ruled out. -/
theorem c6_table_order (recs : List CatRow) (out : List CatRow)
    (h : tableRows recs = Except.ok out) :
    out.Perm recs ∧
    (out.Pairwise fun x y => x.risk_score ≠ PyVal.nan → y.risk_score ≠ PyVal.nan →
      tableSortKey y.risk_score ≤ tableSortKey x.risk_score) ∧
    (out.Pairwise fun x y => x.risk_score = PyVal.none →
      ∀ q : ℚ, y.risk_score = PyVal.num q → q ≤ -1) := by
  rw [tableRows] at h
  by_cases hcon : ((recs.map CatRow.risk_score).contains PyVal.invalid) = true
  · rw [if_pos hcon] at h
    exact Except.noConfusion h
  · rw [if_neg hcon] at h
    have hout : sortDesc (fun r => tableSortKey r.risk_score)
        (recs.filter fun r => !(r.risk_score == PyVal.nan))
        ++ (recs.filter fun r => r.risk_score == PyVal.nan) = out := by
      injection h
    subst hout
    have hmemB : ∀ x ∈ recs.filter (fun r => r.risk_score == PyVal.nan),
        x.risk_score = PyVal.nan := by
      intro x hx
      exact eq_of_beq (List.mem_filter.mp hx).2
    refine ⟨?_, ?_, ?_⟩
    · exact ((sortDesc_perm _ _).append_right _).trans
        (perm_filter_split (fun r => r.risk_score == PyVal.nan) recs)
    · refine List.pairwise_append.mpr ⟨?_, ?_, ?_⟩
      · exact (sortDesc_pairwise _ _).imp fun hk => fun _ _ => hk
      · exact pairwise_of_mem fun x hx y hy => fun hxn _ => absurd (hmemB x hx) hxn
      · intro a ha b hb
        exact fun _ hbn => absurd (hmemB b hb) hbn
    · refine List.pairwise_append.mpr ⟨?_, ?_, ?_⟩
      · refine (sortDesc_pairwise _ _).imp ?_
        intro a b hk hnone q hnum
        rw [hnum, hnone] at hk
        simpa [tableSortKey] using hk
      · refine pairwise_of_mem fun x hx y hy => fun hnone q hnum => ?_
        have hxnan := hmemB x hx
        rw [hnone] at hxnan
        exact PyVal.noConfusion hxnan
      · intro a ha b hb hnone q hnum
        have hbnan := hmemB b hb
        rw [hnum] at hbnan
        exact PyVal.noConfusion hbnan

/-- Witness for the amended C6 on a null row and an in-range numeric row. -/
theorem c6_witness :
    ([⟨PyVal.num 2, 1, "Low Risk"⟩, ⟨PyVal.none, 1, "No Data"⟩] : List CatRow).Perm
        [⟨PyVal.none, 1, "No Data"⟩, ⟨PyVal.num 2, 1, "Low Risk"⟩] ∧
    (([⟨PyVal.num 2, 1, "Low Risk"⟩, ⟨PyVal.none, 1, "No Data"⟩] : List CatRow).Pairwise
      fun x y => x.risk_score ≠ PyVal.nan → y.risk_score ≠ PyVal.nan →
        tableSortKey y.risk_score ≤ tableSortKey x.risk_score) ∧
    (([⟨PyVal.num 2, 1, "Low Risk"⟩, ⟨PyVal.none, 1, "No Data"⟩] : List CatRow).Pairwise
      fun x y => x.risk_score = PyVal.none →
        ∀ q : ℚ, y.risk_score = PyVal.num q → q ≤ -1) :=
  c6_table_order [⟨PyVal.none, 1, "No Data"⟩, ⟨PyVal.num 2, 1, "Low Risk"⟩]
    [⟨PyVal.num 2, 1, "Low Risk"⟩, ⟨PyVal.none, 1, "No Data"⟩] rfl

/-- C7 counterexample: the alert-zone metric has no `try`, so a single
unparsable score raises inside `float(x)` and aborts the whole render pass —
the chart, map and table panels after it never render. -/
theorem c7_counterexample :
    renderPass [⟨PyVal.invalid, 1, "Invalid Data"⟩]
      = Except.error "could not convert string to float" := rfl

/-- C7 as amended: the max-risk, area, chart, map and table panels each catch
(or cannot raise) their own failures, but the alert-zone count is unguarded:
a render pass succeeds exactly when no record's score is an unparsable
value. -/
theorem c7_panel_isolation (recs : List CatRow) :
    (∃ out, renderPass recs = Except.ok out) ↔
      ∀ r ∈ recs, r.risk_score ≠ PyVal.invalid := by
  constructor
  · rintro ⟨out, hout⟩ r hr
    cases hc : countAlerts (recs.map CatRow.risk_score) with
    | error e =>
      rw [renderPass, hc] at hout
      exact Except.noConfusion hout
    | ok n =>
      exact (countAlerts_ok_iff _).mp ⟨n, hc⟩ r.risk_score (List.mem_map_of_mem _ hr)
  · intro h
    have hall : ∀ v ∈ recs.map CatRow.risk_score, v ≠ PyVal.invalid := by
      intro v hv
      rcases List.mem_map.mp hv with ⟨r, hr, rfl⟩
      exact h r hr
    rcases (countAlerts_ok_iff _).mpr hall with ⟨n, hn⟩
    exact ⟨_, by rw [renderPass, hn]⟩

/-- Witness for the amended C7 on a record list with a parsable score. -/
theorem c7_witness :
    ∃ out, renderPass [⟨PyVal.num 3, 1, "Low Risk"⟩] = Except.ok out :=
  (c7_panel_isolation [⟨PyVal.num 3, 1, "Low Risk"⟩]).mpr (by decide)

/-- C8 counterexample: with the claim's literal filenames `a.geo` and `b.geo`
the `.endswith('.geojson')` filter matches neither file, so the selector picks
nothing and the loader reports no valid files instead of selecting `b.geo`. -/
theorem c8_counterexample :
    load_latest_data (some
        [⟨"a.geo", 0, 1, Except.error "empty file"⟩,
         ⟨"b.geo", 512, 2, Except.ok ⟨demoRows, true, true⟩⟩])
      = ⟨Option.none, Option.none, Option.none, some "No valid GeoJSON files found"⟩ := rfl

/-- C8 as amended: with `.geojson` filenames, the empty `a.geojson` is
filtered out, the selector picks `b.geojson`, the classifier labels the scores
1, 5, 9 as No/Moderate/Extreme Risk, and the alert count at threshold 1.0 is 2
(the score 1 is not strictly greater than 1.0). -/
theorem c8_scenario (t1 t2 : Nat) (h : t1 < t2) :
    load_latest_data (some
        [⟨"a.geojson", 0, t1, Except.error "empty file"⟩,
         ⟨"b.geojson", 512, t2, Except.ok ⟨demoRows, true, true⟩⟩])
      = ⟨some (demoRows.map addCategory), some t2, some "b.geojson", Option.none⟩ ∧
    demoRows.map (fun r => get_risk_category r.risk_score)
      = ["No Risk", "Moderate Risk", "Extreme Risk"] ∧
    countAlerts (demoRows.map Row.risk_score) = Except.ok 2 :=
  ⟨rfl, by decide, rfl⟩

/-- Witness for the amended C8 at the concrete creation times 1 and 2. -/
theorem c8_witness :
    load_latest_data (some
        [⟨"a.geojson", 0, 1, Except.error "empty file"⟩,
         ⟨"b.geojson", 512, 2, Except.ok ⟨demoRows, true, true⟩⟩])
      = ⟨some (demoRows.map addCategory), some 2, some "b.geojson", Option.none⟩ ∧
    demoRows.map (fun r => get_risk_category r.risk_score)
      = ["No Risk", "Moderate Risk", "Extreme Risk"] ∧
    countAlerts (demoRows.map Row.risk_score) = Except.ok 2 :=
  c8_scenario 1 2 (by norm_num)
